import Mathlib

/-!
Shallow embedding of the FloatingMenu plugin
(src/demos/src/Extensions/FloatingMenu/React/index.jsx).

The embedding models the ProseMirror-level objects the plugin consults
(nodes, resolved positions, selections, transactions, plugin state) as
plain Lean structures, and the controller (FloatingMenuView) as explicit
state passing.  DOM/tippy side effects are recorded as an action trace
(a `List OverlayAction`) so that claims about "show was / was not invoked" can
be stated as facts about the trace.

Modelling conventions:
* JavaScript values that may be non-boolean (plugin metadata) are a small
  `JSValue` type with JavaScript truthiness.
* `getText(node, { textSerializers: getTextSerializersFromSchema(schema) })`
  is a pure function of the node and the editor schema; both call sites in
  the source (`isEmptyParagraph` and `FloatingMenuView.getTextContent`) pass
  the same serializers from the same editor schema, so the result is
  modelled as the node field `serializedText`.
* `tippy.show()` / `tippy.hide()` run their `onShow` / `onHidden`
  callbacks (which set `this.visible`) synchronously (duration 0).
-/

/-- A JavaScript value, as far as the plugin metadata can observe it:
`tr.getMeta(floatingMenuKey)` returns `undefined` when no metadata was
set, and otherwise the value verbatim. -/
inductive JSValue where
  | undefined
  | null
  | bool (b : Bool)
  | num (n : Int)
  | str (s : String)
deriving DecidableEq, Repr

/-- JavaScript truthiness of a `JSValue` (`!!v`). -/
def JSValue.truthy : JSValue → Bool
  | .undefined => false
  | .null => false
  | .bool b => b
  | .num n => n != 0
  | .str s => s != ""

/-- A ProseMirror node, restricted to the attributes the plugin reads:
`type.name`, `isTextblock`, `type.spec.code`, `content.size`,
`textContent`, `childCount`, and the schema-aware plain-text
serialization `getText(node, { textSerializers })` (field
`serializedText`, see the module header). -/
structure PMNode where
  typeName : String
  isTextblock : Bool
  specCode : Bool
  contentSize : Nat
  textContent : String
  childCount : Nat
  serializedText : String
deriving DecidableEq, Repr

/-- A resolved position (`ResolvedPos`): the plugin reads `.parent` and
`.depth`. -/
structure ResolvedPos where
  parent : PMNode
  depth : Nat
deriving DecidableEq, Repr

/-- A selection: the plugin reads `$anchor`, `$to` and `empty`
(whether the selection is a collapsed caret). -/
structure Selection where
  anchor : ResolvedPos
  toPos : ResolvedPos
  empty : Bool
deriving DecidableEq, Repr

/-- An editor state, restricted to what the reducer and the predicates
consult: an abstract document identity (so that `oldState.doc.eq(newState.doc)`
becomes decidable equality) and the selection. -/
structure EditorState where
  doc : Nat
  selection : Selection
deriving DecidableEq, Repr

/-- A transaction, restricted to the metadata stored under
`floatingMenuKey`; `JSValue.undefined` means no metadata was set. -/
structure Transaction where
  meta : JSValue
deriving DecidableEq, Repr

/-- Source `isEmptyParagraph(pos, editor)`: the parent node's type name is
`paragraph`, its content size is 0, and `getText` of it is falsy (the empty
string). -/
def isEmptyParagraph (pos : ResolvedPos) : Bool :=
  let nodeParent := pos.parent
  if nodeParent.typeName == "paragraph" && nodeParent.contentSize == 0
      && nodeParent.serializedText == "" then
    true
  else
    false

/-- The inline empty-textblock check of the default
`FloatingMenuView.shouldShow`: `$anchor.parent.isTextblock &&
!$anchor.parent.type.spec.code && !$anchor.parent.textContent &&
$anchor.parent.childCount === 0 && !this.getTextContent($anchor.parent)`. -/
def isEmptyTextBlock (n : PMNode) : Bool :=
  n.isTextblock && !n.specCode && n.textContent == ""
    && n.childCount == 0 && n.serializedText == ""

/-- The plugin state held under `floatingMenuKey`.  JavaScript stores the
metadata value verbatim, so the field is a `JSValue`, not a `Bool`. -/
structure PluginState where
  showFloatingMenu : JSValue
deriving DecidableEq, Repr

/-- Source `state.init`: returns `{ showFloatingMenu: false }`. -/
def FloatingMenuPlugin.init : PluginState :=
  { showFloatingMenu := .bool false }

/-- Source `state.apply(tr, value, oldState, newState)`: if the transaction
carries metadata under `floatingMenuKey` the value is stored verbatim;
otherwise the result is `{ showFloatingMenu: false }` on both the
same-doc-and-selection branch and the fallthrough branch. -/
def FloatingMenuPlugin.apply (tr : Transaction) (_value : PluginState)
    (oldState newState : EditorState) : PluginState :=
  if tr.meta != JSValue.undefined then
    { showFloatingMenu := tr.meta }
  else
    let isSameDoc := oldState.doc == newState.doc
    let isSameSelection := oldState.selection == newState.selection
    if isSameDoc && isSameSelection then
      { showFloatingMenu := .bool false }
    else
      { showFloatingMenu := .bool false }

/-- The arguments a `shouldShow` predicate consults: `view.hasFocus()`,
`this.editor.isEditable`, and the state (whose selection carries the
anchor). -/
structure ShouldShowInput where
  hasFocus : Bool
  isEditable : Bool
  state : EditorState
deriving DecidableEq, Repr

/-- The default `FloatingMenuView.shouldShow` (source lines 217-235):
false as soon as the view lacks focus, the selection is not collapsed,
the anchor depth is not 1, the anchor parent is not an empty textblock,
or the editor is not editable; true otherwise. -/
def FloatingMenuView.defaultShouldShow (inp : ShouldShowInput) : Bool :=
  let selection := inp.state.selection
  let anchor := selection.anchor
  let isRootDepth := anchor.depth == 1
  let emptyTextBlock := isEmptyTextBlock anchor.parent
  if !inp.hasFocus || !selection.empty || !isRootDepth
      || !emptyTextBlock || !inp.isEditable then
    false
  else
    true

/-- The `shouldShow` wrapper the `FloatingMenuPlugin` factory installs on
the view (source lines 413-424): requires a collapsed selection, an empty
paragraph at the anchor, and a truthy stored flag, then delegates to
`options.shouldShow` with fallback `true`. -/
def pluginShouldShow (cfg : Option (ShouldShowInput → Bool))
    (stateValue : PluginState) (inp : ShouldShowInput) : Bool :=
  let selection := inp.state.selection
  let emptyParagraph := isEmptyParagraph selection.anchor
  if !selection.empty || !emptyParagraph
      || !stateValue.showFloatingMenu.truthy then
    false
  else
    match cfg with
    | some f => f inp
    | none => true

/-- The constructor's `if (shouldShow) { this.shouldShow = shouldShow }`:
a supplied predicate (a function, hence truthy) replaces the default. -/
def FloatingMenuView.installedShouldShow
    (shouldShowOpt : Option (ShouldShowInput → Bool)) :
    ShouldShowInput → Bool :=
  match shouldShowOpt with
  | some f => f
  | none => FloatingMenuView.defaultShouldShow

/-- The effective `shouldShow` of a view built by the `FloatingMenuPlugin`
factory, which always passes its wrapper to the constructor. -/
def FloatingMenuPlugin.viewShouldShow (cfg : Option (ShouldShowInput → Bool))
    (stateValue : PluginState) : ShouldShowInput → Bool :=
  FloatingMenuView.installedShouldShow (some (pluginShouldShow cfg stateValue))

/-- The tippy overlay instance, restricted to what the controller
observes: whether `popper.firstChild` exists, whether the blur listener
is attached to that child, and whether `destroy()` has been called. -/
structure TippyInstance where
  popperHasFirstChild : Bool
  contentBlurListener : Bool
  destroyed : Bool
deriving DecidableEq, Repr

/-- The mutable fields of a `FloatingMenuView`, together with the
listener registrations its constructor makes (DOM `mousedown`/`keydown`
on the element, editor `focus`/`blur` hooks). -/
structure ViewState where
  visible : Bool
  preventHide : Bool
  forceHide : Bool
  tippy : Option TippyInstance
  elementMousedownListener : Bool
  elementKeydownListener : Bool
  editorFocusHook : Bool
  editorBlurHook : Bool
deriving DecidableEq, Repr

/-- Side effects the controller performs on the overlay library, recorded
as a trace: `createTippy` (the `tippy(...)` call in `createTooltip`),
`setProps` (`this.tippy?.setProps`), `show` (the `show()` method, i.e.
`this.tippy?.show()`), `hide` (the `hide()` method, i.e.
`this.tippy?.hide()`). -/
inductive OverlayAction where
  | createTippy
  | setProps
  | show
  | hide
deriving DecidableEq, Repr

/-- Source method `show()`: `this.tippy?.show()`.  When the instance
exists, its `onShow` callback marks `visible = true`. -/
def FloatingMenuView.showM (vs : ViewState) : ViewState × List OverlayAction :=
  match vs.tippy with
  | some _ => ({ vs with visible := true }, [OverlayAction.show])
  | none => (vs, [OverlayAction.show])

/-- Source method `hide()`: `this.tippy?.hide()`.  When the instance
exists, its `onHidden` callback marks `visible = false`. -/
def FloatingMenuView.hideM (vs : ViewState) : ViewState × List OverlayAction :=
  match vs.tippy with
  | some _ => ({ vs with visible := false }, [OverlayAction.hide])
  | none => (vs, [OverlayAction.hide])

/-- Source `createTooltip()`: a no-op when the instance already exists or
the editor element is not attached; otherwise creates the instance and,
when the popper has a first child, attaches the blur listener to it. -/
def FloatingMenuView.createTooltip (vs : ViewState)
    (editorIsAttached popperHasChild : Bool) : ViewState × List OverlayAction :=
  if vs.tippy.isSome || !editorIsAttached then
    (vs, [])
  else
    ({ vs with
        tippy := some
          { popperHasFirstChild := popperHasChild
            contentBlurListener := popperHasChild
            destroyed := false } },
      [OverlayAction.createTippy])

/-- Source `update(view, oldState)`: skip when composing or already
visible; otherwise lazily create the tooltip, evaluate `this.shouldShow`,
and either hide, or set the reference rect (`this.tippy?.setProps`) and
show. -/
def FloatingMenuView.update (vs : ViewState) (composing : Bool)
    (editorIsAttached popperHasChild : Bool)
    (shouldShow : ShouldShowInput → Bool) (inp : ShouldShowInput) :
    ViewState × List OverlayAction :=
  if composing || vs.visible then
    (vs, [])
  else
    let (vs1, acts1) := FloatingMenuView.createTooltip vs editorIsAttached popperHasChild
    if !(shouldShow inp) then
      let (vs2, acts2) := FloatingMenuView.hideM vs1
      (vs2, acts1 ++ acts2)
    else
      let acts2 := if vs1.tippy.isSome then [OverlayAction.setProps] else []
      let (vs3, acts3) := FloatingMenuView.showM vs1
      (vs3, acts1 ++ acts2 ++ acts3)

/-- The blur event's `relatedTarget`: either null, or a DOM node about
which the handler asks whether `this.element.parentNode` exists and
contains it, and whether it is `this.editor.view.dom`. -/
inductive RelatedTarget where
  | null
  | node (inHost : Bool) (isViewDom : Bool)
deriving DecidableEq, Repr

/-- Truthiness of `event?.relatedTarget`. -/
def RelatedTarget.existsb : RelatedTarget → Bool
  | .null => false
  | .node _ _ => true

/-- Whether `this.element.parentNode?.contains(event.relatedTarget)`. -/
def RelatedTarget.inHostb : RelatedTarget → Bool
  | .null => false
  | .node h _ => h

/-- Whether `event?.relatedTarget === this.editor.view.dom` (null is
never the view's DOM element). -/
def RelatedTarget.isViewDomb : RelatedTarget → Bool
  | .null => false
  | .node _ d => d

/-- Source `mousedownHandler`: sets `preventHide = true`. -/
def FloatingMenuView.mousedownHandler (vs : ViewState) : ViewState :=
  { vs with preventHide := true }

/-- Source `blurHandler`: consume `preventHide` and return; return when
the related target is inside the overlay host; return when it is the
document view's DOM element; otherwise `this.hide()`. -/
def FloatingMenuView.blurHandler (vs : ViewState) (rt : RelatedTarget) :
    ViewState × List OverlayAction :=
  if vs.preventHide then
    ({ vs with preventHide := false }, [])
  else if rt.existsb && rt.inHostb then
    (vs, [])
  else if rt.isViewDomb then
    (vs, [])
  else
    FloatingMenuView.hideM vs

/-- Source `destroy()`: remove the blur listener from the tippy popper's
first child when it exists, destroy the tippy instance, reset
`preventHide` and `visible`, remove both DOM listeners, and detach the
two editor lifecycle hooks. -/
def FloatingMenuView.destroy (vs : ViewState) : ViewState :=
  let tippy1 :=
    match vs.tippy with
    | some t =>
        if t.popperHasFirstChild then
          some { t with contentBlurListener := false }
        else
          some t
    | none => none
  let tippy2 := tippy1.map fun t => { t with destroyed := true }
  { vs with
      tippy := tippy2
      preventHide := false
      visible := false
      elementMousedownListener := false
      elementKeydownListener := false
      editorFocusHook := false
      editorBlurHook := false }

/-- Source command `setFloatMenu(visible)`: when a dispatch function is
available, dispatch the transaction with the boolean stored under
`floatingMenuKey`; always return `true`.  The result is the command's
return value together with the dispatched transaction, if any. -/
def setFloatMenu (visible : Bool) (dispatch : Bool) (tr : Transaction) :
    Bool × Option Transaction :=
  if dispatch then
    (true, some { tr with meta := .bool visible })
  else
    (true, none)

/-- The `Space` keyboard shortcut's inner command: when an editor exists
and `isEmptyParagraph(state.selection.$to, editor)` holds, invoke
`setFloatMenu(true)` and return `true`; otherwise return `false` without
invoking it.  The second component records the argument of the
`setFloatMenu` invocation, if any. -/
def spaceCommand (hasEditor : Bool) (state : EditorState) :
    Bool × Option Bool :=
  if hasEditor && isEmptyParagraph state.selection.toPos then
    (true, some true)
  else
    (false, none)

/-- The `Escape` keyboard shortcut's inner command: when an editor
exists, invoke `setFloatMenu(false)` and return `true`; otherwise return
`false`. -/
def escapeCommand (hasEditor : Bool) : Bool × Option Bool :=
  if hasEditor then
    (true, some false)
  else
    (false, none)

/-- An empty paragraph node, as produced by `<p></p>`. -/
def emptyParagraphNode : PMNode :=
  { typeName := "paragraph", isTextblock := true, specCode := false,
    contentSize := 0, textContent := "", childCount := 0, serializedText := "" }

/-- An empty heading node: an empty textblock whose type name is not
`paragraph` (e.g. an empty `heading` from StarterKit). -/
def emptyHeadingNode : PMNode :=
  { typeName := "heading", isTextblock := true, specCode := false,
    contentSize := 0, textContent := "", childCount := 0, serializedText := "" }

/-- A caret resolved inside an empty root-level paragraph. -/
def emptyParagraphPos : ResolvedPos :=
  { parent := emptyParagraphNode, depth := 1 }

/-- A collapsed selection at `emptyParagraphPos`. -/
def caretSelectionA : Selection :=
  { anchor := emptyParagraphPos, toPos := emptyParagraphPos, empty := true }

/-- A concrete editor state whose caret sits in an empty root paragraph. -/
def sampleStateA : EditorState :=
  { doc := 0, selection := caretSelectionA }

/-- A concrete `shouldShow` input: focused, editable, caret in an empty
root paragraph. -/
def sampleInputA : ShouldShowInput :=
  { hasFocus := true, isEditable := true, state := sampleStateA }

/-- A freshly constructed view state: not visible, no tippy instance yet,
all four listeners attached. -/
def vsFresh : ViewState :=
  { visible := false, preventHide := false, forceHide := false,
    tippy := none,
    elementMousedownListener := true, elementKeydownListener := true,
    editorFocusHook := true, editorBlurHook := true }

/-- A view state whose overlay is currently visible, with a live tippy
instance. -/
def vsVisible : ViewState :=
  { visible := true, preventHide := false, forceHide := false,
    tippy := some
      { popperHasFirstChild := true, contentBlurListener := true,
        destroyed := false },
    elementMousedownListener := true, elementKeydownListener := true,
    editorFocusHook := true, editorBlurHook := true }

/-- Plugin state with the flag set. -/
def svTrue : PluginState := { showFloatingMenu := JSValue.bool true }

/-- Plugin state with the flag cleared. -/
def svFalse : PluginState := { showFloatingMenu := JSValue.bool false }

/-- The configured predicate's contribution inside the wrapper:
`options.shouldShow?.({ ... }) ?? true`. -/
def cfgResult (cfg : Option (ShouldShowInput → Bool))
    (inp : ShouldShowInput) : Bool :=
  match cfg with
  | some f => f inp
  | none => true

lemma pluginShouldShow_eq (cfg : Option (ShouldShowInput → Bool))
    (sv : PluginState) (inp : ShouldShowInput) :
    pluginShouldShow cfg sv inp =
      (inp.state.selection.empty
        && isEmptyParagraph inp.state.selection.anchor
        && sv.showFloatingMenu.truthy
        && cfgResult cfg inp) := by
  cases h1 : inp.state.selection.empty <;>
    cases h2 : isEmptyParagraph inp.state.selection.anchor <;>
      cases h3 : sv.showFloatingMenu.truthy <;>
        simp [pluginShouldShow, cfgResult, h1, h2, h3]

lemma defaultShouldShow_eq (inp : ShouldShowInput) :
    FloatingMenuView.defaultShouldShow inp =
      (inp.hasFocus && inp.state.selection.empty
        && (inp.state.selection.anchor.depth == 1)
        && isEmptyTextBlock inp.state.selection.anchor.parent
        && inp.isEditable) := by
  cases h1 : inp.hasFocus <;>
    cases h2 : inp.state.selection.empty <;>
      cases h3 : inp.state.selection.anchor.depth == 1 <;>
        cases h4 : isEmptyTextBlock inp.state.selection.anchor.parent <;>
          cases h5 : inp.isEditable <;>
            simp [FloatingMenuView.defaultShouldShow, h1, h2, h3, h4, h5]

lemma isEmptyTextBlock_iff (n : PMNode) :
    isEmptyTextBlock n = true ↔
      (n.isTextblock = true ∧ n.specCode = false ∧ n.textContent = ""
        ∧ n.childCount = 0 ∧ n.serializedText = "") := by
  simp [isEmptyTextBlock, and_assoc]

lemma isEmptyParagraph_iff (pos : ResolvedPos) :
    isEmptyParagraph pos = true ↔
      (pos.parent.typeName = "paragraph" ∧ pos.parent.contentSize = 0
        ∧ pos.parent.serializedText = "") := by
  simp [isEmptyParagraph, and_assoc]

lemma update_show_mem (vs : ViewState) (att pop : Bool)
    (ss : ShouldShowInput → Bool) (inp : ShouldShowInput)
    (hvis : vs.visible = false) :
    OverlayAction.show ∈ (FloatingMenuView.update vs false att pop ss inp).2
      ↔ ss inp = true := by
  cases hss : ss inp <;>
    rcases hti : vs.tippy with _ | t <;>
      cases att <;>
        simp [FloatingMenuView.update, FloatingMenuView.createTooltip,
          FloatingMenuView.hideM, FloatingMenuView.showM, hvis, hss, hti]

lemma update_hide_of (vs : ViewState) (att pop : Bool)
    (ss : ShouldShowInput → Bool) (inp : ShouldShowInput)
    (hvis : vs.visible = false) (hss : ss inp = false) :
    OverlayAction.hide ∈ (FloatingMenuView.update vs false att pop ss inp).2
      ∧ (FloatingMenuView.update vs false att pop ss inp).1.visible = false := by
  rcases hti : vs.tippy with _ | t <;>
    cases att <;>
      simp [FloatingMenuView.update, FloatingMenuView.createTooltip,
        FloatingMenuView.hideM, FloatingMenuView.showM, hvis, hss, hti]

/-- C3: the VisibilityState reducer equals the reference definition:
`init()` returns `false`; a transaction carrying boolean visibility
metadata `v` under the plugin key yields exactly `v`; a transaction
without that metadata yields `false` regardless of the prior value and of
the old and new states (hence regardless of whether the document or
selection changed). -/
theorem floatingMenu_reducer_spec :
    FloatingMenuPlugin.init = { showFloatingMenu := JSValue.bool false }
    ∧ (∀ (tr : Transaction) (v : PluginState) (o n : EditorState) (b : Bool),
        tr.meta = JSValue.bool b →
        FloatingMenuPlugin.apply tr v o n = { showFloatingMenu := JSValue.bool b })
    ∧ (∀ (tr : Transaction) (v : PluginState) (o n : EditorState),
        tr.meta = JSValue.undefined →
        FloatingMenuPlugin.apply tr v o n = { showFloatingMenu := JSValue.bool false }) := by
  refine ⟨rfl, ?_, ?_⟩
  · intro tr v o n b h
    simp [FloatingMenuPlugin.apply, h]
  · intro tr v o n h
    simp [FloatingMenuPlugin.apply, h]

/-- C5: an update cycle invoked while the view reports an in-progress
composition, or while the controller's `visible` flag is already `true`,
performs no overlay action at all (no `createTippy`, no `setProps`, no
`show`, no `hide`) and leaves the controller state, including the overlay
instance, unchanged. -/
theorem update_skip_frame (vs : ViewState) (composing att pop : Bool)
    (ss : ShouldShowInput → Bool) (inp : ShouldShowInput)
    (h : composing = true ∨ vs.visible = true) :
    FloatingMenuView.update vs composing att pop ss inp = (vs, []) := by
  rcases h with h | h <;> simp [FloatingMenuView.update, h]

/-- Witness for C5: a concrete skipped update (overlay already visible,
predicate would say hide) changes nothing. -/
theorem update_skip_frame_applied :
    FloatingMenuView.update vsVisible false true true
      (FloatingMenuPlugin.viewShouldShow none svFalse) sampleInputA
      = (vsVisible, []) :=
  update_skip_frame vsVisible false true true
    (FloatingMenuPlugin.viewShouldShow none svFalse) sampleInputA
    (Or.inr rfl)

/-- C6: the default `shouldShow` predicate returns `true` iff the view
has focus, the selection is collapsed, the anchor sits at depth 1, the
anchor's parent is an empty eligible textblock (textblock, no `code`
spec, empty text content, zero children, empty schema-aware
serialization), and the editor is editable. -/
theorem defaultShouldShow_iff (inp : ShouldShowInput) :
    FloatingMenuView.defaultShouldShow inp = true ↔
      (inp.hasFocus = true
        ∧ inp.state.selection.empty = true
        ∧ inp.state.selection.anchor.depth = 1
        ∧ inp.state.selection.anchor.parent.isTextblock = true
        ∧ inp.state.selection.anchor.parent.specCode = false
        ∧ inp.state.selection.anchor.parent.textContent = ""
        ∧ inp.state.selection.anchor.parent.childCount = 0
        ∧ inp.state.selection.anchor.parent.serializedText = ""
        ∧ inp.isEditable = true) := by
  rw [defaultShouldShow_eq]
  simp [isEmptyTextBlock, and_assoc]

/-- Counterexample to C1 as stated: with the overlay currently visible,
falsifying the flag conjunct (flag `false`) while the other conjuncts
hold (collapsed selection, empty paragraph at the anchor, default
configured predicate) leaves the update a no-op: no `hide` is invoked and
the controller still reports the overlay shown. -/
theorem update_visible_skip_kept_shown :
    JSValue.truthy svFalse.showFloatingMenu = false
    ∧ sampleInputA.state.selection.empty = true
    ∧ isEmptyParagraph sampleInputA.state.selection.anchor = true
    ∧ cfgResult none sampleInputA = true
    ∧ FloatingMenuView.update vsVisible false true true
        (FloatingMenuPlugin.viewShouldShow none svFalse) sampleInputA
      = (vsVisible, [])
    ∧ vsVisible.visible = true := by
  decide

/-- C1 (amended): on every update cycle the controller does not skip (no
composition in progress, overlay not already marked visible), `show` is
invoked iff the stored flag is truthy AND the selection is collapsed AND
the anchor sits in an empty paragraph (`isEmptyParagraph`) AND the
configured predicate (default `true`) agrees; falsifying any one
conjunct while the others hold makes the update invoke `hide` and leaves
the controller's `visible` flag `false`. -/
theorem update_gate_conjunction (vs : ViewState) (att pop : Bool)
    (cfg : Option (ShouldShowInput → Bool)) (sv : PluginState)
    (inp : ShouldShowInput) (hvis : vs.visible = false) :
    (OverlayAction.show ∈
        (FloatingMenuView.update vs false att pop
          (FloatingMenuPlugin.viewShouldShow cfg sv) inp).2
      ↔ (sv.showFloatingMenu.truthy = true
          ∧ inp.state.selection.empty = true
          ∧ isEmptyParagraph inp.state.selection.anchor = true
          ∧ cfgResult cfg inp = true))
    ∧ ((sv.showFloatingMenu.truthy = false ∨ inp.state.selection.empty = false
          ∨ isEmptyParagraph inp.state.selection.anchor = false
          ∨ cfgResult cfg inp = false) →
        OverlayAction.hide ∈
          (FloatingMenuView.update vs false att pop
            (FloatingMenuPlugin.viewShouldShow cfg sv) inp).2
        ∧ (FloatingMenuView.update vs false att pop
            (FloatingMenuPlugin.viewShouldShow cfg sv) inp).1.visible = false) := by
  have hw : FloatingMenuPlugin.viewShouldShow cfg sv inp =
      (inp.state.selection.empty
        && isEmptyParagraph inp.state.selection.anchor
        && sv.showFloatingMenu.truthy
        && cfgResult cfg inp) := by
    simpa [FloatingMenuPlugin.viewShouldShow, FloatingMenuView.installedShouldShow]
      using pluginShouldShow_eq cfg sv inp
  constructor
  · rw [update_show_mem vs att pop _ inp hvis, hw]
    simp [and_assoc]
    tauto
  · intro hfalse
    apply update_hide_of vs att pop _ inp hvis
    rw [hw]
    rcases hfalse with h | h | h | h <;> simp [h]

/-- Witness for C1 (amended): from a fresh controller with all four
conjuncts holding, the concrete update invokes `show`. -/
theorem update_gate_conjunction_applied :
    OverlayAction.show ∈
      (FloatingMenuView.update vsFresh false true true
        (FloatingMenuPlugin.viewShouldShow none svTrue) sampleInputA).2 :=
  (update_gate_conjunction vsFresh true true none svTrue sampleInputA rfl).1.mpr
    (by decide)

/-- Counterexample to C2 as stated: an empty heading (an empty textblock
whose type name is not `paragraph`) satisfies the default gate's inline
five-condition check but not `isEmptyParagraph`, so the predicate used on
the keyboard/plugin-wrapper path is not the five-condition predicate and
the two paths' checks are not extensionally equal. -/
theorem caret_predicates_disagree :
    isEmptyTextBlock emptyHeadingNode = true
    ∧ isEmptyParagraph { parent := emptyHeadingNode, depth := 1 } = false := by
  decide

/-- C2 (amended): there is no single caret-context predicate.  The
keyboard shortcut (on the selection end) and the plugin wrapper (on the
selection anchor) share `isEmptyParagraph`, which holds iff the enclosing
node's type name is `paragraph`, its content size is 0 and its
schema-aware serialization is empty; the default `shouldShow`'s inline
check is the five-condition predicate of the spec; the two predicates are
not extensionally equal (an empty heading separates them). -/
theorem caret_predicates_characterized :
    (∀ pos : ResolvedPos, isEmptyParagraph pos = true ↔
        (pos.parent.typeName = "paragraph" ∧ pos.parent.contentSize = 0
          ∧ pos.parent.serializedText = ""))
    ∧ (∀ (hasEditor : Bool) (st : EditorState),
        (spaceCommand hasEditor st).1
          = (hasEditor && isEmptyParagraph st.selection.toPos))
    ∧ (∀ (cfg : Option (ShouldShowInput → Bool)) (sv : PluginState)
        (inp : ShouldShowInput),
        pluginShouldShow cfg sv inp =
          (inp.state.selection.empty
            && isEmptyParagraph inp.state.selection.anchor
            && sv.showFloatingMenu.truthy && cfgResult cfg inp))
    ∧ (∀ n : PMNode, isEmptyTextBlock n = true ↔
        (n.isTextblock = true ∧ n.specCode = false ∧ n.textContent = ""
          ∧ n.childCount = 0 ∧ n.serializedText = ""))
    ∧ isEmptyTextBlock emptyHeadingNode
        ≠ isEmptyParagraph { parent := emptyHeadingNode, depth := 1 } := by
  refine ⟨isEmptyParagraph_iff, ?_, pluginShouldShow_eq, isEmptyTextBlock_iff, by decide⟩
  intro hasEditor st
  cases h1 : hasEditor <;> cases h2 : isEmptyParagraph st.selection.toPos <;>
    simp [spaceCommand, h1, h2]

/-- C4: the blur handler consumes `preventHide` (resetting it to `false`)
and does nothing else when it is set; does nothing when the related
target is contained in the overlay host or is the document view's DOM
element; hides otherwise.  Consequently the sequence [mousedown inside
the overlay host] then [blur with any related target] performs no overlay
action, leaves `visible` unchanged, and leaves `preventHide` at `false`. -/
theorem blurHandler_spec :
    (∀ (vs : ViewState) (rt : RelatedTarget), vs.preventHide = true →
      FloatingMenuView.blurHandler vs rt = ({ vs with preventHide := false }, []))
    ∧ (∀ (vs : ViewState) (rt : RelatedTarget), vs.preventHide = false →
        rt.inHostb = true →
        FloatingMenuView.blurHandler vs rt = (vs, []))
    ∧ (∀ (vs : ViewState) (rt : RelatedTarget), vs.preventHide = false →
        rt.isViewDomb = true →
        FloatingMenuView.blurHandler vs rt = (vs, []))
    ∧ (∀ (vs : ViewState) (rt : RelatedTarget), vs.preventHide = false →
        rt.inHostb = false → rt.isViewDomb = false →
        FloatingMenuView.blurHandler vs rt = FloatingMenuView.hideM vs
        ∧ OverlayAction.hide ∈ (FloatingMenuView.blurHandler vs rt).2)
    ∧ (∀ (vs : ViewState) (rt : RelatedTarget),
        FloatingMenuView.blurHandler (FloatingMenuView.mousedownHandler vs) rt
          = ({ vs with preventHide := false }, [])) := by
  refine ⟨?_, ?_, ?_, ?_, ?_⟩
  · intro vs rt h
    simp [FloatingMenuView.blurHandler, h]
  · intro vs rt h hin
    rcases rt with _ | ⟨inHost, isDom⟩ <;>
      simp_all [FloatingMenuView.blurHandler, RelatedTarget.existsb,
        RelatedTarget.inHostb]
  · intro vs rt h hdom
    rcases rt with _ | ⟨inHost, isDom⟩
    · simp [RelatedTarget.isViewDomb] at hdom
    · cases inHost <;>
        simp_all [FloatingMenuView.blurHandler, RelatedTarget.existsb,
          RelatedTarget.inHostb, RelatedTarget.isViewDomb]
  · intro vs rt h hin hdom
    have hb : FloatingMenuView.blurHandler vs rt = FloatingMenuView.hideM vs := by
      rcases rt with _ | ⟨inHost, isDom⟩ <;>
        simp_all [FloatingMenuView.blurHandler, RelatedTarget.existsb,
          RelatedTarget.inHostb, RelatedTarget.isViewDomb]
    refine ⟨hb, ?_⟩
    rw [hb]
    rcases hti : vs.tippy <;> simp [FloatingMenuView.hideM, hti]
  · intro vs rt
    simp [FloatingMenuView.blurHandler, FloatingMenuView.mousedownHandler]

/-- C7: the `Space` shortcut command invokes `setFloatMenu(true)` and
returns `true` exactly when the caret's `$to` sits in an empty paragraph;
otherwise it returns `false` without invoking `setFloatMenu`.  The
`Escape` shortcut command, given a command context, always invokes
`setFloatMenu(false)` and returns `true`; and `setFloatMenu` itself
always reports success, dispatching a transaction that stores the boolean
under the plugin key exactly when a dispatch function is available. -/
theorem keyboard_shortcuts_spec :
    (∀ st : EditorState, isEmptyParagraph st.selection.toPos = true →
      spaceCommand true st = (true, some true))
    ∧ (∀ (hasEditor : Bool) (st : EditorState),
        isEmptyParagraph st.selection.toPos = false →
        spaceCommand hasEditor st = (false, none))
    ∧ (∀ st : EditorState,
        (spaceCommand true st).1 = isEmptyParagraph st.selection.toPos)
    ∧ escapeCommand true = (true, some false)
    ∧ (∀ (v d : Bool) (tr : Transaction), (setFloatMenu v d tr).1 = true)
    ∧ (∀ (v : Bool) (tr : Transaction),
        (setFloatMenu v true tr).2 = some { tr with meta := JSValue.bool v })
    ∧ (∀ (v : Bool) (tr : Transaction), (setFloatMenu v false tr).2 = none) := by
  refine ⟨?_, ?_, ?_, rfl, ?_, ?_, ?_⟩
  · intro st h
    simp [spaceCommand, h]
  · intro hasEditor st h
    cases hasEditor <;> simp [spaceCommand, h]
  · intro st
    cases h : isEmptyParagraph st.selection.toPos <;> simp [spaceCommand, h]
  · intro v d tr
    cases d <;> simp [setFloatMenu]
  · intro v tr
    simp [setFloatMenu]
  · intro v tr
    simp [setFloatMenu]

/-- C8: `destroy` detaches both DOM listeners and both editor lifecycle
hooks, resets `preventHide` and `visible` to `false`, removes the blur
listener from the overlay's rendered content and destroys the instance
when one exists, is idempotent, and is a safe no-op on a controller whose
overlay instance was never created. -/
theorem destroy_idempotent_detaches :
    (∀ vs : ViewState,
      (FloatingMenuView.destroy vs).preventHide = false
      ∧ (FloatingMenuView.destroy vs).visible = false
      ∧ (FloatingMenuView.destroy vs).elementMousedownListener = false
      ∧ (FloatingMenuView.destroy vs).elementKeydownListener = false
      ∧ (FloatingMenuView.destroy vs).editorFocusHook = false
      ∧ (FloatingMenuView.destroy vs).editorBlurHook = false)
    ∧ (∀ vs : ViewState,
        FloatingMenuView.destroy (FloatingMenuView.destroy vs)
          = FloatingMenuView.destroy vs)
    ∧ (∀ vs : ViewState, vs.tippy = none →
        (FloatingMenuView.destroy vs).tippy = none)
    ∧ (∀ (vs : ViewState) (t : TippyInstance), vs.tippy = some t →
        t.popperHasFirstChild = true →
        (FloatingMenuView.destroy vs).tippy
          = some { t with contentBlurListener := false, destroyed := true }) := by
  refine ⟨?_, ?_, ?_, ?_⟩
  · intro vs
    simp [FloatingMenuView.destroy]
  · intro vs
    rcases hti : vs.tippy with _ | t
    · simp [FloatingMenuView.destroy, hti]
    · cases hc : t.popperHasFirstChild <;>
        simp [FloatingMenuView.destroy, hti, hc]
  · intro vs h
    simp [FloatingMenuView.destroy, h]
  · intro vs t h hc
    simp [FloatingMenuView.destroy, h, hc]

/-- C9: the plugin factory always installs its wrapper as the view's
`shouldShow` (a function is truthy, so it replaces the default); with no
configured `shouldShow`, the effective predicate is exactly the
three-conjunct gate (collapsed selection, empty paragraph at the anchor,
truthy flag), and neither the focus/editability inputs nor the anchor
depth are consulted. -/
theorem pluginViewShouldShow_default :
    (∀ (cfg : Option (ShouldShowInput → Bool)) (sv : PluginState),
      FloatingMenuPlugin.viewShouldShow cfg sv = pluginShouldShow cfg sv)
    ∧ (∀ (sv : PluginState) (inp : ShouldShowInput),
        pluginShouldShow none sv inp =
          (inp.state.selection.empty
            && isEmptyParagraph inp.state.selection.anchor
            && sv.showFloatingMenu.truthy))
    ∧ (∀ (sv : PluginState) (inp : ShouldShowInput) (f e : Bool),
        pluginShouldShow none sv { inp with hasFocus := f, isEditable := e }
          = pluginShouldShow none sv inp)
    ∧ (∀ (pos : ResolvedPos) (d : Nat),
        isEmptyParagraph { pos with depth := d } = isEmptyParagraph pos) := by
  refine ⟨fun _ _ => rfl, ?_, ?_, fun pos d => rfl⟩
  · intro sv inp
    rw [pluginShouldShow_eq]
    simp [cfgResult]
  · intro sv inp f e
    rw [pluginShouldShow_eq, pluginShouldShow_eq]
    rfl

/-- C10: a transaction whose metadata under the plugin key is defined has
that value stored verbatim by the reducer — including non-boolean values —
and the plugin-level gate consults only the truthiness of the stored
value. -/
theorem meta_stored_verbatim :
    (∀ (tr : Transaction) (v : PluginState) (o n : EditorState),
      tr.meta ≠ JSValue.undefined →
      FloatingMenuPlugin.apply tr v o n = { showFloatingMenu := tr.meta })
    ∧ (∀ (cfg : Option (ShouldShowInput → Bool)) (sv : PluginState)
        (inp : ShouldShowInput),
        sv.showFloatingMenu.truthy = false →
        pluginShouldShow cfg sv inp = false)
    ∧ (∀ (cfg : Option (ShouldShowInput → Bool)) (sv sw : PluginState)
        (inp : ShouldShowInput),
        sv.showFloatingMenu.truthy = sw.showFloatingMenu.truthy →
        pluginShouldShow cfg sv inp = pluginShouldShow cfg sw inp) := by
  refine ⟨?_, ?_, ?_⟩
  · intro tr v o n h
    simp [FloatingMenuPlugin.apply, h]
  · intro cfg sv inp h
    rw [pluginShouldShow_eq, h]
    simp
  · intro cfg sv sw inp h
    rw [pluginShouldShow_eq, pluginShouldShow_eq, h]

/-- Counterexample to C7 as stated: with the end of the selection inside
an empty heading — an empty textblock with no `code` spec and zero
children — the `Space` command reports failure without invoking
`setFloatMenu`, because the structural condition the code tests is
`isEmptyParagraph` (type name `paragraph`), not empty-eligible-textblock. -/
theorem space_heading_rejected :
    isEmptyTextBlock emptyHeadingNode = true
    ∧ emptyHeadingNode.specCode = false
    ∧ emptyHeadingNode.childCount = 0
    ∧ spaceCommand true
        { doc := 0,
          selection :=
            { anchor := { parent := emptyHeadingNode, depth := 1 },
              toPos := { parent := emptyHeadingNode, depth := 1 },
              empty := true } }
        = (false, none) := by
  decide
